import Mathlib

/-!
Verification development for the DependoZoho repository (a FastAPI gateway
that manages Zoho Desk dependency mappings).  The Python sources
`app/config.py`, `app/main.py` and `app/upload.py` are shallowly embedded
below: pure helpers become Lean functions, the module-level mutable state
(`CREDENTIALS`, `TOKENS`, `REFRESH_TOKEN`) becomes explicit state records
threaded through each operation, and each outbound HTTP call is modelled by
passing the remote response as an argument together with a counter of
outbound calls actually issued.
-/

/-! ### Python string primitives

The embedding uses list-of-character implementations of the Python string
methods the sources call (`str.lower`, `str.strip`, `str.title`), so that
every definition reduces inside the kernel. -/

/-- Python `str.lower()` for the ASCII range (the only range the sources
feed it). -/
def pyLower (s : String) : String :=
  ⟨s.data.map Char.toLower⟩

/-- Python `str.strip()`: remove whitespace from both ends. -/
def pyStrip (s : String) : String :=
  ⟨((s.data.dropWhile Char.isWhitespace).reverse.dropWhile Char.isWhitespace).reverse⟩

/-- Python truthiness of an `Optional[str]`: `None` and `""` are falsy. -/
def pyTruthy : Option String → Bool
  | none => false
  | some s => !(s == "")

/-- One step of Python `str.title()`: uppercase a letter that follows a
non-letter, lowercase a letter that follows a letter. -/
def pyTitleGo : Bool → List Char → List Char
  | _, [] => []
  | prevAlpha, c :: cs =>
    (if c.isAlpha then (if prevAlpha then c.toLower else c.toUpper) else c) ::
      pyTitleGo c.isAlpha cs

/-- Python `str.title()` for the ASCII range. -/
def pyTitle (s : String) : String :=
  ⟨pyTitleGo false s.data⟩

/-! ### `app/config.py` -/

/-- `config.DEFAULT_ZOHO_DOMAIN`. -/
def DEFAULT_ZOHO_DOMAIN : String := "com"

/-- `config.ZOHO_DOMAINS`. -/
def ZOHO_DOMAINS : List String := ["com", "in", "eu", "sa", "cn", "au"]

/-- Python's rendering of `ZOHO_DOMAINS` inside the f-string of
`get_zoho_base_url`'s error message. -/
def ZOHO_DOMAINS_REPR : String := "['com', 'in', 'eu', 'sa', 'cn', 'au']"

/-- `domain = domain.lower() if domain else DEFAULT_ZOHO_DOMAIN`
(line 15 of `config.py`): `None` and `""` are both falsy in Python. -/
def normalize_domain : Option String → String
  | none => DEFAULT_ZOHO_DOMAIN
  | some s => if s = "" then DEFAULT_ZOHO_DOMAIN else pyLower s

/-- `config.get_zoho_base_url`: resolve an optional domain code to the
Zoho Desk base URL, or raise `ValueError` (modelled as `.error`) for an
unsupported domain. -/
def get_zoho_base_url (domain : Option String) : Except String String :=
  let d := normalize_domain domain
  if d ∈ ZOHO_DOMAINS then
    .ok ("https://desk.zoho." ++ d ++ "/api/v1")
  else
    .error ("Unsupported Zoho domain '" ++ d ++ "'. Supported: " ++ ZOHO_DOMAINS_REPR)

/-- `config.CREDENTIALS`: the in-memory credential store. -/
structure Credentials where
  orgId : Option String
  accessToken : Option String
  domain : String
  deriving Repr, DecidableEq

/-- The initial value of `config.CREDENTIALS`. -/
def CREDENTIALS_INIT : Credentials :=
  { orgId := none, accessToken := none, domain := DEFAULT_ZOHO_DOMAIN }

/-! ### The upload fold (`app/main.py` lines 253-259, `app/upload.py` lines 74-81)

Python dicts preserve insertion order, so the accumulating
`dependency_map` is embedded as an association list. -/

/-- Lookup in an insertion-ordered association list (Python `dict`
membership / indexing). -/
def alookup (p : String) : List (String × List String) → Option (List String)
  | [] => none
  | kv :: m => if kv.1 = p then some kv.2 else alookup p m

/-- The body of the row loop shared by `upload_dependency` (main.py) and
`upload_dependency_mapping` (upload.py): trim both values, insert the
parent key if new, append the child value if not already present. -/
def foldStep (m : List (String × List String)) (r : String × String) :
    List (String × List String) :=
  let parent_value := pyStrip r.1
  let child_value := pyStrip r.2
  match alookup parent_value m with
  | none => m ++ [(parent_value, [child_value])]
  | some cs =>
    if child_value ∈ cs then m
    else m.map fun kv => if kv.1 = parent_value then (kv.1, kv.2 ++ [child_value]) else kv

/-- The whole row loop: fold the rows in order into the dependency map. -/
def foldRows (rows : List (String × String)) : List (String × List String) :=
  rows.foldl foldStep []

/-- Keep the first occurrence of each element of a list, in order of first
appearance (used only to state the spec's description of the fold). -/
def firstSeen {α : Type} [DecidableEq α] (l : List α) : List α :=
  l.foldl (fun acc a => if a ∈ acc then acc else acc ++ [a]) []

/-- The spec's declarative description of the upload fold, written from the
spec's words for the refinement comparison: parent keys in first-seen row
order, each mapped to its trimmed child values in order of first appearance
with duplicates dropped. -/
def specNormalize (rows : List (String × String)) : List (String × List String) :=
  let t := rows.map fun r => (pyStrip r.1, pyStrip r.2)
  (firstSeen (t.map Prod.fst)).map fun p =>
    (p, firstSeen ((t.filter fun r => decide (r.1 = p)).map Prod.snd))

/-- `specNormalize` with the row-trimming factored out: the declarative
map built from already-trimmed pairs (proof-structuring form). -/
def specMap (t : List (String × String)) : List (String × List String) :=
  (firstSeen (t.map Prod.fst)).map fun p =>
    (p, firstSeen ((t.filter fun x => decide (x.1 = p)).map Prod.snd))

/-- `foldStep` with the trimming factored out: one insertion of an
already-trimmed (parent, child) pair (proof-structuring form). -/
def insertStep (m : List (String × List String)) (pv cv : String) :
    List (String × List String) :=
  match alookup pv m with
  | none => m ++ [(pv, [cv])]
  | some cs =>
    if cv ∈ cs then m
    else m.map fun kv => if kv.1 = pv then (kv.1, kv.2 ++ [cv]) else kv

/-! ### Tabular input -/

/-- A parsed spreadsheet: the header labels and the string-rendered rows,
each row aligned with `columns`. -/
structure DataFrame where
  columns : List String
  rows : List (List String)
  deriving Repr, DecidableEq

/-- `row[c]` inside `df.iterrows()`: the row's value at column label `c`
(`none` models a Python `KeyError`). -/
def DataFrame.cell (df : DataFrame) (row : List String) (c : String) : Option String :=
  (df.columns.findIdx? fun x => decide (x = c)).bind fun i => row.get? i

/-- The (parent, child) string pairs read off the rows at the two chosen
column labels; `none` models a `KeyError` on a missing column. -/
def extractPairs (df : DataFrame) (pcol ccol : String) :
    Option (List (String × String)) :=
  df.rows.mapM fun row => do
    let pv ← df.cell row pcol
    let cv ← df.cell row ccol
    pure (pv, cv)

/-! ### HTTP plumbing -/

/-- A remote HTTP response as the sources consume it: status code and body
text. -/
structure HttpResp where
  status : Nat
  text : String
  deriving Repr, DecidableEq

/-- Outcome of a gateway operation: the remote URL it builds, the
FastAPI-visible result (an `HTTPException` status/detail pair or the
passed-through body), and how many outbound calls were issued. -/
structure GatewayOut where
  url : String
  result : Except (Nat × String) String
  remote_calls : Nat

/-! ### Mapping gateway (`app/main.py` lines 191-210, 290-307)

Each operation first builds auth headers via `get_headers()`; token
acquisition is modelled separately by `get_access_token` below, so these
definitions take the data call's remote response directly. -/

/-- `GET /mappings` (`list_mappings`). -/
def list_mappings (layoutId : Option String) (resp : HttpResp) : GatewayOut :=
  let url := "https://desk.zoho.com/api/v1/dependencyMappings" ++
    (if pyTruthy layoutId then "?layoutId=" ++ layoutId.getD "" else "")
  if resp.status ≠ 200 then
    { url := url, result := .error (resp.status, resp.text), remote_calls := 1 }
  else
    { url := url, result := .ok resp.text, remote_calls := 1 }

/-- `GET /available-fields` (`available_fields`); `layoutId` is a mandatory
query parameter. -/
def available_fields (layoutId : String) (resp : HttpResp) : GatewayOut :=
  let url := "https://desk.zoho.com/api/v1/availableDependencyMappings?layoutId=" ++ layoutId
  if resp.status ≠ 200 then
    { url := url, result := .error (resp.status, resp.text), remote_calls := 1 }
  else
    { url := url, result := .ok resp.text, remote_calls := 1 }

/-- `PATCH /mappings/{mapping_id}` (`update_mapping`). -/
def update_mapping (mapping_id : String) (resp : HttpResp) : GatewayOut :=
  let url := "https://desk.zoho.com/api/v1/dependencyMappings/" ++ mapping_id
  if resp.status ≠ 200 then
    { url := url, result := .error (resp.status, resp.text), remote_calls := 1 }
  else
    { url := url, result := .ok resp.text, remote_calls := 1 }

/-- `DELETE /mappings/{mapping_id}` (`delete_mapping`): on 200 the remote
body is discarded and a fixed confirmation is returned. -/
def delete_mapping (mapping_id : String) (resp : HttpResp) : GatewayOut :=
  let url := "https://desk.zoho.com/api/v1/dependencyMappings/" ++ mapping_id
  if resp.status ≠ 200 then
    { url := url, result := .error (resp.status, resp.text), remote_calls := 1 }
  else
    { url := url, result := .ok "Dependency Mapping Deleted Successfully", remote_calls := 1 }

/-! ### Upload pipelines -/

/-- The JSON payload POSTed to `/dependencyMappings`. -/
structure UploadPayload where
  layoutId : String
  parentId : String
  childId : String
  mappings : List (String × List String)
  deriving Repr, DecidableEq

/-- Outcome of an upload pipeline: the error raised or the payload
successfully created remotely, plus the number of outbound calls. -/
structure UploadOut where
  result : Except (Nat × String) UploadPayload
  remote_calls : Nat

/-- The Excel branch of `upload_dependency` (`app/main.py` lines 240-285,
with `file` supplied and `json_data` absent): shape check, column
selection (caller-supplied field ids take precedence over the first two
headers), the row fold, the empty-map check, then the remote create. -/
def upload_dependency (layoutId : String) (parentId childId : Option String)
    (df : DataFrame) (resp : HttpResp) : UploadOut :=
  if df.columns.length < 2 then
    { result := .error (400, "Excel must have at least two columns for parent/child"),
      remote_calls := 0 }
  else
    let parent_column := if pyTruthy parentId then parentId.getD "" else df.columns.getD 0 ""
    let child_column := if pyTruthy childId then childId.getD "" else df.columns.getD 1 ""
    match extractPairs df parent_column child_column with
    | none => { result := .error (500, "KeyError"), remote_calls := 0 }
    | some pairs =>
      let dependency_map := foldRows pairs
      if dependency_map = [] then
        { result := .error (400, "No mappings found in input"), remote_calls := 0 }
      else
        let payload : UploadPayload :=
          { layoutId := layoutId,
            parentId := if pyTruthy parentId then parentId.getD "" else parent_column,
            childId := if pyTruthy childId then childId.getD "" else child_column,
            mappings := dependency_map }
        if ¬ (resp.status = 200 ∨ resp.status = 201) then
          { result := .error (resp.status, resp.text), remote_calls := 1 }
        else
          { result := .ok payload, remote_calls := 1 }

/-- The Excel branch of `upload_dependency_mapping` (`app/upload.py` lines
57-127, with `file` supplied): all three ids are required, headers are
stripped and title-cased, the columns must contain `Category` and
`Subcategory`, and those two fixed columns feed the row fold regardless of
the supplied field ids. -/
def upload_dependency_mapping (layoutId parentId childId : Option String)
    (df : DataFrame) (resp : HttpResp) : UploadOut :=
  if ¬ (pyTruthy layoutId = true ∧ pyTruthy parentId = true ∧ pyTruthy childId = true) then
    { result := .error (400, "layoutId, parentId, and childId are required for Excel upload"),
      remote_calls := 0 }
  else
    let df2 : DataFrame := { df with columns := df.columns.map fun c => pyTitle (pyStrip c) }
    if ¬ ("Category" ∈ df2.columns ∧ "Subcategory" ∈ df2.columns) then
      { result := .error (400, "Excel must contain columns: \x7b'Category', 'Subcategory'\x7d"),
        remote_calls := 0 }
    else
      match extractPairs df2 "Category" "Subcategory" with
      | none => { result := .error (500, "KeyError"), remote_calls := 0 }
      | some pairs =>
        let dependency_map := foldRows pairs
        if dependency_map = [] then
          { result := .error (400, "Excel file is empty"), remote_calls := 0 }
        else
          let payload : UploadPayload :=
            { layoutId := layoutId.getD "",
              parentId := parentId.getD "",
              childId := childId.getD "",
              mappings := dependency_map }
          if ¬ (resp.status = 200 ∨ resp.status = 201) then
            { result := .error (resp.status, resp.text), remote_calls := 1 }
          else
            { result := .ok payload, remote_calls := 1 }

/-! ### OAuth token lifecycle (`app/main.py` lines 15-44, 144-179)

`TOKENS` and `REFRESH_TOKEN` are the process state; the token endpoint's
answer is passed in as a parsed response. -/

/-- The module state `TOKENS["access_token"]`, `TOKENS["expires_at"]` and
the global `REFRESH_TOKEN`. -/
structure OAuthState where
  access_token : Option String
  expires_at : Option Int
  refresh_token : Option String
  deriving Repr, DecidableEq

/-- A response from the Zoho token endpoint: status and body text, plus
the parsed JSON fields the code reads when the status is 200. -/
structure TokenResp where
  status : Nat
  text : String
  access_token : String
  expires_in : Int
  refresh_token : Option String
  deriving Repr, DecidableEq

/-- Outcome of `get_access_token`: the token returned or the
`HTTPException` raised, the state after the call, and the number of
outbound calls to the token endpoint. -/
structure TokenOut where
  result : Except (Nat × String) String
  state : OAuthState
  remote_calls : Nat

/-- `get_access_token` (`app/main.py` lines 25-44): return the cached token
unless it is missing/expired; then refresh via the refresh token if one
exists, else raise 400. `now` is `time.time()`. -/
def get_access_token (now : Int) (st : OAuthState) (resp : TokenResp) : TokenOut :=
  if pyTruthy st.access_token = false ∨ now > st.expires_at.getD 0 then
    if pyTruthy st.refresh_token = true then
      if resp.status ≠ 200 then
        { result := .error (500, "Failed to get access token: " ++ resp.text),
          state := st, remote_calls := 1 }
      else
        { result := .ok resp.access_token,
          state := { st with access_token := some resp.access_token,
                             expires_at := some (now + resp.expires_in - 60) },
          remote_calls := 1 }
    else
      { result := .error (400, "No refresh token available, generate tokens first"),
        state := st, remote_calls := 0 }
  else
    { result := .ok (st.access_token.getD ""), state := st, remote_calls := 0 }

/-- The visible outcome of `oauth_callback`. -/
inductive CallbackResult where
  | errorField (error : String)
  | noCode
  | tokenFailure (details : String)
  | success
  deriving Repr, DecidableEq

/-- Outcome of `oauth_callback`: the response returned, the token state
after the call, and the number of outbound calls to the token endpoint. -/
structure CallbackOut where
  result : CallbackResult
  state : OAuthState
  remote_calls : Nat
  deriving Repr, DecidableEq

/-- `oauth_callback` (`app/main.py` lines 144-179): exchange the
authorization code for tokens; on a 200 answer overwrite the token state
(including `REFRESH_TOKEN`, via `data.get("refresh_token")`), on any other
status return the error payload and leave the state untouched. -/
def oauth_callback (now : Int) (st : OAuthState) (code error : Option String)
    (resp : TokenResp) : CallbackOut :=
  if pyTruthy error = true then
    { result := .errorField (error.getD ""), state := st, remote_calls := 0 }
  else if pyTruthy code = false then
    { result := .noCode, state := st, remote_calls := 0 }
  else if resp.status ≠ 200 then
    { result := .tokenFailure resp.text, state := st, remote_calls := 1 }
  else
    { result := .success,
      state := { access_token := some resp.access_token,
                 expires_at := some (now + resp.expires_in - 60),
                 refresh_token := resp.refresh_token },
      remote_calls := 1 }

/-! ### Credential-set operation with validation probe -/

/-- What the remote validation probe answered. -/
inductive ProbeResult where
  | accepted
  | rejected401
  | transportFailure
  deriving Repr, DecidableEq

/-- Outcome of the credential-set operation. -/
structure SetCredOut where
  result : Except (Nat × String) String
  store : Credentials
  remote_calls : Nat

/-- Modelled from the spec: the validating credential-set operation of
spec §4.2 (`setCredentials(orgId, accessToken, region)`), which writes
`config.CREDENTIALS`, is not present under `src/` — `config.py` only
declares the store, and `app/main.py`'s `set_credentials` stores OAuth
client settings without any probe.  Per the spec's words: resolve the
region first (a failure aborts and leaves the store untouched), then probe
the remote service with the supplied credentials (401 fails with
InvalidCredential, transport failure with RemoteUnavailable), and only on
success atomically overwrite the store with orgId, accessToken and
region. -/
def setCredentials (store : Credentials) (orgId accessToken : String)
    (region : Option String) (probe : ProbeResult) : SetCredOut :=
  match get_zoho_base_url region with
  | .error e => { result := .error (400, e), store := store, remote_calls := 0 }
  | .ok _ =>
    match probe with
    | .rejected401 =>
      { result := .error (401, "token invalid or expired"), store := store, remote_calls := 1 }
    | .transportFailure =>
      { result := .error (500, "RemoteUnavailable"), store := store, remote_calls := 1 }
    | .accepted =>
      { result := .ok "configured",
        store := { orgId := some orgId, accessToken := some accessToken,
                   domain := normalize_domain region },
        remote_calls := 1 }

/-! ### Theorems for claim C1 -/

/-- C1 counterexample: the claim says every code outside the supported set
fails, and that the error names the supplied value.  But the supplied code
`""` is outside the set yet returns the default URL (Python truthiness
sends `""` to the default domain), and for the supplied code `"XX"` the
error message names the lowercased form `"xx"`, not the supplied `"XX"`. -/
theorem get_zoho_base_url_C1_counterexample :
    get_zoho_base_url (some "") = .ok "https://desk.zoho.com/api/v1" ∧
    get_zoho_base_url (some "XX") =
      .error ("Unsupported Zoho domain '" ++ "xx" ++ "'. Supported: " ++ ZOHO_DOMAINS_REPR) ∧
    "xx" ≠ "XX" := by
  refine ⟨rfl, rfl, by decide⟩

/-- C1 (amended): an absent or empty domain code yields the default
region's URL `https://desk.zoho.com/api/v1`; a code whose lowercasing lies
in the supported set `{com, in, eu, sa, cn, au}` yields the well-formed URL
built from the lowercased code, and these six URLs are pairwise distinct; a
nonempty code whose lowercasing is outside the set fails with a
`ValueError` naming the lowercased supplied value and the supported set. -/
theorem get_zoho_base_url_C1_amended (d : String) :
    get_zoho_base_url none = .ok "https://desk.zoho.com/api/v1" ∧
    get_zoho_base_url (some "") = .ok "https://desk.zoho.com/api/v1" ∧
    (pyLower d ∈ ZOHO_DOMAINS →
      get_zoho_base_url (some d) = .ok ("https://desk.zoho." ++ pyLower d ++ "/api/v1")) ∧
    (d ≠ "" → pyLower d ∉ ZOHO_DOMAINS →
      get_zoho_base_url (some d) =
        .error ("Unsupported Zoho domain '" ++ pyLower d ++ "'. Supported: " ++ ZOHO_DOMAINS_REPR)) ∧
    (ZOHO_DOMAINS.map fun c => "https://desk.zoho." ++ c ++ "/api/v1").Nodup := by
  refine ⟨rfl, rfl, ?_, ?_, by decide⟩
  · intro h
    have hne : d ≠ "" := by
      intro he
      subst he
      exact absurd h (by decide)
    simp only [get_zoho_base_url, normalize_domain, if_neg hne, if_pos h]
  · intro hne h
    simp only [get_zoho_base_url, normalize_domain, if_neg hne, if_neg h]

/-- Witness for C1 (amended): concrete instances of both conditional
branches, a supported mixed-case code and an unsupported one. -/
theorem get_zoho_base_url_C1_amended_witness :
    get_zoho_base_url (some "IN") = .ok ("https://desk.zoho." ++ pyLower "IN" ++ "/api/v1") ∧
    get_zoho_base_url (some "xy") =
      .error ("Unsupported Zoho domain '" ++ pyLower "xy" ++ "'. Supported: " ++ ZOHO_DOMAINS_REPR) := by
  exact ⟨(get_zoho_base_url_C1_amended "IN").2.2.1 (by decide),
    (get_zoho_base_url_C1_amended "xy").2.2.2.1 (by decide) (by decide)⟩

/-! ### Theorems for claim C10 -/

/-- C10: whatever the token state and whatever the token endpoint answers —
including a response carrying a new refresh token — `get_access_token`
never changes the stored refresh token. -/
theorem get_access_token_C10_refresh_token_frame (now : Int) (st : OAuthState)
    (resp : TokenResp) :
    (get_access_token now st resp).state.refresh_token = st.refresh_token := by
  unfold get_access_token
  split
  · split
    · split <;> rfl
    · rfl
  · rfl

/-! ### Theorems for claim C5 -/

/-- C5 counterexample: with no cached access token and a refresh token
present, a refresh attempt that the remote answers with status 400 raises a
500 error and leaves the token state unchanged — the access token and
expiry are not replaced, contrary to the claim's unconditional
"replaces the access token and expiry". -/
theorem get_access_token_C5_counterexample :
    (get_access_token 1000 ⟨none, none, some "R"⟩
        ⟨400, "invalid_client", "NEW", 3600, none⟩).state = ⟨none, none, some "R"⟩ ∧
    (get_access_token 1000 ⟨none, none, some "R"⟩
        ⟨400, "invalid_client", "NEW", 3600, none⟩).result =
      .error (500, "Failed to get access token: invalid_client") ∧
    (⟨none, none, some "R"⟩ : OAuthState).access_token ≠ some "NEW" := by
  exact ⟨rfl, rfl, by decide⟩

/-- C5 (amended): while a truthy access token is cached and the current
time has not passed its stored expiry, `get_access_token` returns the
cached token, issues no remote call and leaves the state unchanged; when
the token is missing or expired and a truthy refresh token exists, it
issues exactly one remote refresh call, and if that call answers 200 it
returns the fresh token and replaces the access token and expiry
(`now + expires_in - 60`), while on any other status it raises a 500 error
and leaves the state unchanged; when no truthy refresh token exists it
raises a 400 error ("generate tokens first") without any remote call. -/
theorem get_access_token_C5_amended (now : Int) (st : OAuthState) (resp : TokenResp) :
    (pyTruthy st.access_token = true → ¬ now > st.expires_at.getD 0 →
      (get_access_token now st resp).result = .ok (st.access_token.getD "") ∧
      (get_access_token now st resp).state = st ∧
      (get_access_token now st resp).remote_calls = 0) ∧
    ((pyTruthy st.access_token = false ∨ now > st.expires_at.getD 0) →
      pyTruthy st.refresh_token = true →
      (get_access_token now st resp).remote_calls = 1 ∧
      (resp.status = 200 →
        (get_access_token now st resp).result = .ok resp.access_token ∧
        (get_access_token now st resp).state =
          { st with access_token := some resp.access_token,
                    expires_at := some (now + resp.expires_in - 60) }) ∧
      (resp.status ≠ 200 →
        (get_access_token now st resp).result =
          .error (500, "Failed to get access token: " ++ resp.text) ∧
        (get_access_token now st resp).state = st)) ∧
    ((pyTruthy st.access_token = false ∨ now > st.expires_at.getD 0) →
      pyTruthy st.refresh_token = false →
      (get_access_token now st resp).result =
        .error (400, "No refresh token available, generate tokens first") ∧
      (get_access_token now st resp).state = st ∧
      (get_access_token now st resp).remote_calls = 0) := by
  refine ⟨?_, ?_, ?_⟩
  · intro h1 h2
    have hc : ¬ (pyTruthy st.access_token = false ∨ now > st.expires_at.getD 0) := by
      rintro (h | h)
      · rw [h1] at h
        exact Bool.noConfusion h
      · exact h2 h
    unfold get_access_token
    rw [if_neg hc]
    exact ⟨rfl, rfl, rfl⟩
  · intro h1 h2
    unfold get_access_token
    rw [if_pos h1, if_pos h2]
    refine ⟨?_, ?_, ?_⟩
    · split <;> rfl
    · intro h3
      rw [if_neg (fun hne => hne h3)]
      exact ⟨rfl, rfl⟩
    · intro h3
      rw [if_pos h3]
      exact ⟨rfl, rfl⟩
  · intro h1 h2
    have hc : ¬ pyTruthy st.refresh_token = true := by
      rw [h2]
      exact fun h => Bool.noConfusion h
    unfold get_access_token
    rw [if_pos h1, if_neg hc]
    exact ⟨rfl, rfl, rfl⟩

/-- Witness for C5 (amended): the cached branch, the successful-refresh
branch, and the missing-refresh-token branch at concrete inputs. -/
theorem get_access_token_C5_amended_witness :
    (get_access_token 0 ⟨some "T", some 100, some "R"⟩ ⟨200, "", "N", 3600, none⟩).result =
      .ok "T" ∧
    (get_access_token 500 ⟨none, some 100, some "R"⟩ ⟨200, "ok", "N", 3600, none⟩).state =
      ⟨some "N", some (500 + 3600 - 60), some "R"⟩ ∧
    (get_access_token 500 ⟨none, none, none⟩ ⟨200, "", "N", 3600, none⟩).result =
      .error (400, "No refresh token available, generate tokens first") := by
  refine ⟨?_, ?_, ?_⟩
  · exact ((get_access_token_C5_amended 0 ⟨some "T", some 100, some "R"⟩
      ⟨200, "", "N", 3600, none⟩).1 (by decide) (by decide)).1
  · exact (((get_access_token_C5_amended 500 ⟨none, some 100, some "R"⟩
      ⟨200, "ok", "N", 3600, none⟩).2.1 (Or.inl (by decide)) (by decide)).2.1 rfl).2
  · exact ((get_access_token_C5_amended 500 ⟨none, none, none⟩
      ⟨200, "", "N", 3600, none⟩).2.2 (Or.inl (by decide)) (by decide)).1

/-! ### Theorems for claim C6 -/

/-- C6 counterexample: 201 is a 2xx status, yet when the token endpoint
answers 201 `oauth_callback` treats the exchange as failed: it returns the
error payload and leaves the token state unchanged, instead of storing the
expiry `now + lifetime - 60` as the claim requires for a successful
answer. -/
theorem oauth_callback_C6_counterexample :
    (oauth_callback 1000 ⟨none, some 0, none⟩ (some "c") none
        ⟨201, "token-body", "NEW", 3600, some "RT"⟩).result = .tokenFailure "token-body" ∧
    (oauth_callback 1000 ⟨none, some 0, none⟩ (some "c") none
        ⟨201, "token-body", "NEW", 3600, some "RT"⟩).state = ⟨none, some 0, none⟩ ∧
    (⟨none, some 0, none⟩ : OAuthState).expires_at ≠ some (1000 + 3600 - 60) := by
  exact ⟨rfl, rfl, by decide⟩

/-- C6 (amended): on an authorization-code exchange (nonempty code, no
error parameter), exactly one call to the token endpoint is issued; when it
answers with any status other than 200 the callback surfaces the remote
error payload (`"Failed to get tokens"` with the remote body as details)
and leaves the token state — access token, expiry and refresh token —
unchanged; when it answers 200 the stored expiry becomes
`now + expires_in - 60`, the access token becomes the remote one and the
refresh token becomes the remote `refresh_token` field. -/
theorem oauth_callback_C6_amended (now : Int) (st : OAuthState) (c : String)
    (resp : TokenResp) (hc : c ≠ "") :
    (resp.status ≠ 200 →
      (oauth_callback now st (some c) none resp).result = .tokenFailure resp.text ∧
      (oauth_callback now st (some c) none resp).state = st) ∧
    (resp.status = 200 →
      (oauth_callback now st (some c) none resp).result = .success ∧
      (oauth_callback now st (some c) none resp).state =
        { access_token := some resp.access_token,
          expires_at := some (now + resp.expires_in - 60),
          refresh_token := resp.refresh_token }) ∧
    (oauth_callback now st (some c) none resp).remote_calls = 1 := by
  have herr : ¬ pyTruthy (none : Option String) = true := by
    intro h
    exact Bool.noConfusion h
  have hcode : ¬ pyTruthy (some c) = false := by
    simp [pyTruthy, hc]
  unfold oauth_callback
  rw [if_neg herr, if_neg hcode]
  refine ⟨?_, ?_, ?_⟩
  · intro h3
    rw [if_pos h3]
    exact ⟨rfl, rfl⟩
  · intro h3
    rw [if_neg (fun hne => hne h3)]
    exact ⟨rfl, rfl⟩
  · split <;> rfl

/-- Witness for C6 (amended): a rejected exchange (status 400) and an
accepted one (status 200) at concrete inputs. -/
theorem oauth_callback_C6_amended_witness :
    (oauth_callback 1000 ⟨some "OLD", some 5, some "OLDRT"⟩ (some "c") none
        ⟨400, "bad code", "NEW", 3600, some "RT"⟩).state =
      ⟨some "OLD", some 5, some "OLDRT"⟩ ∧
    (oauth_callback 1000 ⟨some "OLD", some 5, some "OLDRT"⟩ (some "c") none
        ⟨200, "ok", "NEW", 3600, some "RT"⟩).state =
      ⟨some "NEW", some (1000 + 3600 - 60), some "RT"⟩ := by
  refine ⟨?_, ?_⟩
  · exact ((oauth_callback_C6_amended 1000 ⟨some "OLD", some 5, some "OLDRT"⟩ "c"
      ⟨400, "bad code", "NEW", 3600, some "RT"⟩ (by decide)).1 (by decide)).2
  · exact ((oauth_callback_C6_amended 1000 ⟨some "OLD", some 5, some "OLDRT"⟩ "c"
      ⟨200, "ok", "NEW", 3600, some "RT"⟩ (by decide)).2.1 rfl).2

/-! ### Theorems for claim C2 -/

/-- C2: the credential store is left exactly as it was whenever the remote
validation probe rejects the supplied token (simulated 401) — and more
generally the store changes only when the probe succeeds, in which case it
is overwritten with orgId, accessToken and the normalized region all at
once. -/
theorem setCredentials_C2 (store : Credentials) (orgId tok : String)
    (region : Option String) (probe : ProbeResult) :
    (probe = .rejected401 → (setCredentials store orgId tok region probe).store = store) ∧
    ((setCredentials store orgId tok region probe).store ≠ store →
      probe = .accepted ∧
      (setCredentials store orgId tok region probe).store =
        { orgId := some orgId, accessToken := some tok,
          domain := normalize_domain region }) := by
  unfold setCredentials
  cases hg : get_zoho_base_url region with
  | error e =>
    exact ⟨fun _ => rfl, fun h => absurd rfl h⟩
  | ok u =>
    cases probe with
    | accepted => exact ⟨fun h => ProbeResult.noConfusion h, fun _ => ⟨rfl, rfl⟩⟩
    | rejected401 => exact ⟨fun _ => rfl, fun h => absurd rfl h⟩
    | transportFailure => exact ⟨fun _ => rfl, fun h => absurd rfl h⟩

/-- Witness for C2: a rejected probe leaves the empty store untouched, and
an accepted probe overwrites it with all three fields at once. -/
theorem setCredentials_C2_witness :
    (setCredentials CREDENTIALS_INIT "org1" "tok1" (some "EU") .rejected401).store =
      CREDENTIALS_INIT ∧
    (setCredentials CREDENTIALS_INIT "org1" "tok1" (some "EU") .accepted).store =
      { orgId := some "org1", accessToken := some "tok1",
        domain := normalize_domain (some "EU") } := by
  refine ⟨?_, ?_⟩
  · exact (setCredentials_C2 CREDENTIALS_INIT "org1" "tok1" (some "EU") .rejected401).1 rfl
  · exact ((setCredentials_C2 CREDENTIALS_INIT "org1" "tok1" (some "EU") .accepted).2
      (by decide)).2

/-! ### Theorems for claim C7 -/

/-- C7 counterexample: 201 is a 2xx status, yet `list_mappings` fails on it
(the code accepts only exactly 200), forwarding status 201 and the body —
the claim says a 2xx remote response must not fail. -/
theorem list_mappings_C7_counterexample :
    (list_mappings none ⟨201, "created-body"⟩).result = .error (201, "created-body") ∧
    200 ≤ 201 ∧ 201 < 300 := by
  exact ⟨rfl, by decide, by decide⟩

/-- C7 (amended): every gateway operation issues exactly one outbound
attempt and, on any remote status other than its accepted set, fails with
an error carrying that remote status code and the remote body verbatim.
The accepted set is exactly {200} for list, available-fields, update and
delete (other 2xx statuses also fail), and exactly {200, 201} for the two
create-from-upload operations; on an accepted status the operation does
not fail. -/
theorem gateway_C7_amended (lid : Option String) (lid2 mid mid2 : String)
    (l : String) (pid cid l2 p2 c2 : Option String) (df df2 : DataFrame)
    (resp : HttpResp) :
    (resp.status ≠ 200 →
      (list_mappings lid resp).result = .error (resp.status, resp.text) ∧
      (available_fields lid2 resp).result = .error (resp.status, resp.text) ∧
      (update_mapping mid resp).result = .error (resp.status, resp.text) ∧
      (delete_mapping mid2 resp).result = .error (resp.status, resp.text)) ∧
    (resp.status = 200 →
      (list_mappings lid resp).result = .ok resp.text ∧
      (available_fields lid2 resp).result = .ok resp.text ∧
      (update_mapping mid resp).result = .ok resp.text ∧
      (delete_mapping mid2 resp).result = .ok "Dependency Mapping Deleted Successfully") ∧
    ((list_mappings lid resp).remote_calls = 1 ∧
      (available_fields lid2 resp).remote_calls = 1 ∧
      (update_mapping mid resp).remote_calls = 1 ∧
      (delete_mapping mid2 resp).remote_calls = 1) ∧
    ((upload_dependency l pid cid df resp).remote_calls = 1 →
      (¬ (resp.status = 200 ∨ resp.status = 201) →
        (upload_dependency l pid cid df resp).result = .error (resp.status, resp.text)) ∧
      ((resp.status = 200 ∨ resp.status = 201) →
        ∃ pl, (upload_dependency l pid cid df resp).result = .ok pl)) ∧
    ((upload_dependency_mapping l2 p2 c2 df2 resp).remote_calls = 1 →
      (¬ (resp.status = 200 ∨ resp.status = 201) →
        (upload_dependency_mapping l2 p2 c2 df2 resp).result =
          .error (resp.status, resp.text)) ∧
      ((resp.status = 200 ∨ resp.status = 201) →
        ∃ pl, (upload_dependency_mapping l2 p2 c2 df2 resp).result = .ok pl)) := by
  refine ⟨?_, ?_, ⟨?_, ?_, ?_, ?_⟩, ?_, ?_⟩
  · intro h
    unfold list_mappings available_fields update_mapping delete_mapping
    rw [if_pos h, if_pos h, if_pos h, if_pos h]
    exact ⟨rfl, rfl, rfl, rfl⟩
  · intro h
    have hn : ¬ resp.status ≠ 200 := fun hne => hne h
    unfold list_mappings available_fields update_mapping delete_mapping
    rw [if_neg hn, if_neg hn, if_neg hn, if_neg hn]
    exact ⟨rfl, rfl, rfl, rfl⟩
  · unfold list_mappings
    by_cases h : resp.status = 200
    · rw [if_neg (fun hne => hne h)]
    · rw [if_pos h]
  · unfold available_fields
    by_cases h : resp.status = 200
    · rw [if_neg (fun hne => hne h)]
    · rw [if_pos h]
  · unfold update_mapping
    by_cases h : resp.status = 200
    · rw [if_neg (fun hne => hne h)]
    · rw [if_pos h]
  · unfold delete_mapping
    by_cases h : resp.status = 200
    · rw [if_neg (fun hne => hne h)]
    · rw [if_pos h]
  · simp only [upload_dependency]
    split
    · intro h
      exact absurd h (by decide)
    · split
      · intro h
        exact absurd h (by decide)
      · split
        · intro h
          exact absurd h (by decide)
        · split
          · rename_i hcond
            intro _
            exact ⟨fun _ => rfl, fun hs => absurd hs hcond⟩
          · rename_i hcond
            intro _
            exact ⟨fun hn => absurd hn (fun hnn => hcond hnn), fun _ => ⟨_, rfl⟩⟩
  · simp only [upload_dependency_mapping]
    split
    · intro h
      exact absurd h (by decide)
    · split
      · intro h
        exact absurd h (by decide)
      · split
        · intro h
          exact absurd h (by decide)
        · split
          · intro h
            exact absurd h (by decide)
          · split
            · rename_i hcond
              intro _
              exact ⟨fun _ => rfl, fun hs => absurd hs hcond⟩
            · rename_i hcond
              intro _
              exact ⟨fun hn => absurd hn (fun hnn => hcond hnn), fun _ => ⟨_, rfl⟩⟩

/-- Witness for C7 (amended): a 404 answer and a 200 answer at concrete
inputs, with both upload pipelines actually reaching their outbound call. -/
theorem gateway_C7_amended_witness :
    (list_mappings none ⟨404, "nf"⟩).result = .error (404, "nf") ∧
    (list_mappings none ⟨200, "body"⟩).result = .ok "body" ∧
    (upload_dependency "L" none none ⟨["a", "b"], [["p", "c"]]⟩ ⟨404, "nf"⟩).result =
      .error (404, "nf") ∧
    (∃ pl, (upload_dependency_mapping (some "L") (some "P") (some "C")
      ⟨["Category", "Subcategory"], [["p", "c"]]⟩ ⟨200, "body"⟩).result = .ok pl) := by
  refine ⟨?_, ?_, ?_, ?_⟩
  · exact ((gateway_C7_amended none "x" "y" "z" "L" none none none none none
      ⟨["a", "b"], [["p", "c"]]⟩ ⟨["Category", "Subcategory"], [["p", "c"]]⟩
      ⟨404, "nf"⟩).1 (by decide)).1
  · exact ((gateway_C7_amended none "x" "y" "z" "L" none none none none none
      ⟨["a", "b"], [["p", "c"]]⟩ ⟨["Category", "Subcategory"], [["p", "c"]]⟩
      ⟨200, "body"⟩).2.1 rfl).1
  · exact ((gateway_C7_amended none "x" "y" "z" "L" none none none none none
      ⟨["a", "b"], [["p", "c"]]⟩ ⟨["Category", "Subcategory"], [["p", "c"]]⟩
      ⟨404, "nf"⟩).2.2.2.1 rfl).1 (by decide)
  · exact ((gateway_C7_amended none "x" "y" "z" "L" none none (some "L") (some "P") (some "C")
      ⟨["a", "b"], [["p", "c"]]⟩ ⟨["Category", "Subcategory"], [["p", "c"]]⟩
      ⟨200, "body"⟩).2.2.2.2 rfl).2 (Or.inl rfl)

/-! ### Auxiliary lemmas about the fold -/

/-- Membership in the first-seen accumulator fold. -/
theorem mem_foldl_seen {α : Type} [DecidableEq α] (l : List α) (acc : List α) (x : α) :
    x ∈ l.foldl (fun acc a => if a ∈ acc then acc else acc ++ [a]) acc ↔
      x ∈ acc ∨ x ∈ l := by
  induction l generalizing acc with
  | nil => simp
  | cons a l ih =>
    rw [List.foldl_cons, ih]
    by_cases h : a ∈ acc
    · rw [if_pos h]
      constructor
      · rintro (hx | hx)
        · exact Or.inl hx
        · exact Or.inr (List.mem_cons_of_mem _ hx)
      · rintro (hx | hx)
        · exact Or.inl hx
        · rcases List.mem_cons.mp hx with hx | hx
          · exact Or.inl (hx ▸ h)
          · exact Or.inr hx
    · rw [if_neg h]
      simp only [List.mem_append, List.mem_singleton, List.mem_cons]
      tauto

/-- `firstSeen` has the same members as the original list. -/
theorem mem_firstSeen {α : Type} [DecidableEq α] (l : List α) (x : α) :
    x ∈ firstSeen l ↔ x ∈ l := by
  rw [firstSeen, mem_foldl_seen]
  simp

/-- Appending one element to the input of `firstSeen` appends it to the
output exactly when it is new. -/
theorem firstSeen_snoc {α : Type} [DecidableEq α] (l : List α) (a : α) :
    firstSeen (l ++ [a]) = if a ∈ l then firstSeen l else firstSeen l ++ [a] := by
  have key : firstSeen (l ++ [a]) =
      if a ∈ firstSeen l then firstSeen l else firstSeen l ++ [a] := by
    calc firstSeen (l ++ [a])
        = [a].foldl (fun acc x => if x ∈ acc then acc else acc ++ [x]) (firstSeen l) := by
          rw [firstSeen, List.foldl_append]
          rfl
      _ = if a ∈ firstSeen l then firstSeen l else firstSeen l ++ [a] := by
          rw [List.foldl_cons, List.foldl_nil]
  rw [key]
  by_cases h : a ∈ l
  · rw [if_pos ((mem_firstSeen l a).mpr h), if_pos h]
  · rw [if_neg (fun hx => h ((mem_firstSeen l a).mp hx)), if_neg h]

/-- Looking a key up in a list of (key, value-of-key) pairs. -/
theorem alookup_map_keys (l : List String) (f : String → List String) (p : String) :
    alookup p (l.map fun a => (a, f a)) = if p ∈ l then some (f p) else none := by
  induction l with
  | nil => simp [alookup]
  | cons a l ih =>
    rw [List.map_cons, alookup]
    by_cases h : a = p
    · subst h
      rw [if_pos rfl, if_pos (List.mem_cons_self _ _)]
    · rw [if_neg h, ih]
      by_cases hp : p ∈ l
      · rw [if_pos hp, if_pos (List.mem_cons_of_mem _ hp)]
      · rw [if_neg hp, if_neg (fun hc => by
          rcases List.mem_cons.mp hc with hc | hc
          · exact h hc.symm
          · exact hp hc)]

/-- `insertStep` when the parent is new. -/
theorem insertStep_of_lookup_none (m : List (String × List String)) (pv cv : String)
    (h : alookup pv m = none) : insertStep m pv cv = m ++ [(pv, [cv])] := by
  unfold insertStep
  rw [h]

/-- `insertStep` when the parent exists and already has the child. -/
theorem insertStep_of_lookup_some_mem (m : List (String × List String)) (pv cv : String)
    (cs : List String) (h : alookup pv m = some cs) (hm : cv ∈ cs) :
    insertStep m pv cv = m := by
  unfold insertStep
  rw [h]
  exact if_pos hm

/-- `insertStep` when the parent exists and lacks the child. -/
theorem insertStep_of_lookup_some_not_mem (m : List (String × List String)) (pv cv : String)
    (cs : List String) (h : alookup pv m = some cs) (hm : cv ∉ cs) :
    insertStep m pv cv =
      m.map fun kv => if kv.1 = pv then (kv.1, kv.2 ++ [cv]) else kv := by
  unfold insertStep
  rw [h]
  exact if_neg hm

/-- Looking a parent up in the declarative map yields its deduplicated
child list exactly when the parent occurs in the trimmed rows. -/
theorem alookup_specMap (t : List (String × String)) (pv : String) :
    alookup pv (specMap t) =
      if pv ∈ t.map Prod.fst then
        some (firstSeen ((t.filter fun x => decide (x.1 = pv)).map Prod.snd))
      else none := by
  rw [specMap, alookup_map_keys (firstSeen (t.map Prod.fst))
    (fun p => firstSeen ((t.filter fun x => decide (x.1 = p)).map Prod.snd)) pv]
  by_cases h : pv ∈ t.map Prod.fst
  · rw [if_pos ((mem_firstSeen _ _).mpr h), if_pos h]
  · rw [if_neg (fun hx => h ((mem_firstSeen _ _).mp hx)), if_neg h]

/-- One snoc step of the declarative map agrees with one insertion step. -/
theorem specMap_snoc (t : List (String × String)) (pv cv : String) :
    specMap (t ++ [(pv, cv)]) = insertStep (specMap t) pv cv := by
  by_cases hmem : pv ∈ t.map Prod.fst
  · have halo := alookup_specMap t pv
    rw [if_pos hmem] at halo
    by_cases hcv : cv ∈ firstSeen ((t.filter fun x => decide (x.1 = pv)).map Prod.snd)
    · rw [insertStep_of_lookup_some_mem _ _ _ _ halo hcv]
      unfold specMap
      rw [List.map_append]
      simp only [List.map_cons, List.map_nil]
      rw [firstSeen_snoc, if_pos hmem]
      apply List.map_congr_left
      intro p hp
      dsimp only
      rw [List.filter_append]
      by_cases hppv : pv = p
      · subst hppv
        rw [show List.filter (fun x => decide (x.1 = pv)) [(pv, cv)] = [(pv, cv)] from by simp]
        rw [List.map_append, List.map_cons, List.map_nil]
        dsimp only
        rw [firstSeen_snoc, if_pos ((mem_firstSeen _ _).mp hcv)]
      · rw [show List.filter (fun x => decide (x.1 = p)) [(pv, cv)] = [] from by simp [hppv],
          List.append_nil]
    · rw [insertStep_of_lookup_some_not_mem _ _ _ _ halo hcv]
      unfold specMap
      rw [List.map_append]
      simp only [List.map_cons, List.map_nil]
      rw [firstSeen_snoc, if_pos hmem, List.map_map]
      apply List.map_congr_left
      intro p hp
      simp only [Function.comp_apply]
      rw [List.filter_append]
      by_cases hppv : pv = p
      · subst hppv
        rw [if_pos rfl]
        rw [show List.filter (fun x => decide (x.1 = pv)) [(pv, cv)] = [(pv, cv)] from by simp]
        rw [List.map_append, List.map_cons, List.map_nil]
        dsimp only
        rw [firstSeen_snoc, if_neg (fun hc => hcv ((mem_firstSeen _ _).mpr hc))]
      · rw [if_neg (fun h : p = pv => hppv h.symm)]
        rw [show List.filter (fun x => decide (x.1 = p)) [(pv, cv)] = [] from by simp [hppv],
          List.append_nil]
  · have halo := alookup_specMap t pv
    rw [if_neg hmem] at halo
    rw [insertStep_of_lookup_none _ _ _ halo]
    unfold specMap
    rw [List.map_append]
    simp only [List.map_cons, List.map_nil]
    rw [firstSeen_snoc, if_neg hmem, List.map_append, List.map_cons, List.map_nil]
    congr 1
    · apply List.map_congr_left
      intro p hp
      dsimp only
      have hpK : p ∈ t.map Prod.fst := (mem_firstSeen _ _).mp hp
      have hne : pv ≠ p := fun he => hmem (he ▸ hpK)
      rw [List.filter_append,
        show List.filter (fun x => decide (x.1 = p)) [(pv, cv)] = [] from by simp [hne],
        List.append_nil]
    · dsimp only
      have hfilter : List.filter (fun x => decide (x.1 = pv)) t = [] := by
        rw [List.filter_eq_nil_iff]
        intro x hx hdec
        exact hmem (of_decide_eq_true hdec ▸ List.mem_map_of_mem Prod.fst hx)
      rw [List.filter_append, hfilter, List.nil_append,
        show List.filter (fun x => decide (x.1 = pv)) [(pv, cv)] = [(pv, cv)] from by simp]
      simp [firstSeen]

/-- The implemented row fold equals the spec's declarative description. -/
theorem foldRows_eq_specNormalize (rows : List (String × String)) :
    foldRows rows = specNormalize rows := by
  have h2 : ∀ (m : List (String × List String)) (r : String × String),
      foldStep m r = insertStep m (pyStrip r.1) (pyStrip r.2) := fun m r => rfl
  have h3 : ∀ rows : List (String × String),
      specNormalize rows = specMap (rows.map fun r => (pyStrip r.1, pyStrip r.2)) :=
    fun rows => rfl
  induction rows using List.reverseRecOn with
  | nil => rfl
  | append_singleton rows r ih =>
    rw [foldRows, List.foldl_append, List.foldl_cons, List.foldl_nil,
      show List.foldl foldStep [] rows = foldRows rows from rfl, ih, h2, h3, h3,
      List.map_append, List.map_cons, List.map_nil]
    exact (specMap_snoc _ _ _).symm

/-! ### Theorems for claim C3 -/

/-- C3: for every sequence of tabular rows, the upload fold produces
exactly the spec's description — for each parent value the list of its
trimmed child values in order of first appearance with no duplicates, and
parent keys in first-seen row order; in particular the rows (A,x), (A,y),
(A,x) yield exactly the mapping A ↦ [x, y]. -/
theorem foldRows_C3 (rows : List (String × String)) :
    foldRows rows = specNormalize rows ∧
    foldRows [("A", "x"), ("A", "y"), ("A", "x")] = [("A", ["x", "y"])] :=
  ⟨foldRows_eq_specNormalize rows, rfl⟩

/-! ### Theorems for claim C4 -/

/-- C4 counterexample: the fold has no emptiness check — the row (A," ")
is not dropped: the rows (A," "), (B,z) yield {A: [""], B: [z]}, not the
claimed {B: [z]}. -/
theorem foldRows_C4_counterexample :
    foldRows [("A", " "), ("B", "z")] = [("A", [""]), ("B", ["z"])] ∧
    foldRows [("A", " "), ("B", "z")] ≠ [("B", ["z"])] :=
  ⟨rfl, by decide⟩

/-- C4 (amended): rows whose parent or child trims to the empty string are
NOT dropped: every row contributes its trimmed pair, the trimmed parent
(possibly "") becoming a key and the trimmed child (possibly "") a member
of that key's list; in particular (A," "), (B,z) yield {A: [""], B: [z]}. -/
theorem foldRows_C4_amended (rows : List (String × String)) (r : String × String)
    (hr : r ∈ rows) :
    (∃ cs, alookup (pyStrip r.1) (foldRows rows) = some cs ∧ pyStrip r.2 ∈ cs) ∧
    foldRows [("A", " "), ("B", "z")] = [("A", [""]), ("B", ["z"])] := by
  refine ⟨?_, rfl⟩
  have h3 : specNormalize rows = specMap (rows.map fun r => (pyStrip r.1, pyStrip r.2)) := rfl
  rw [foldRows_eq_specNormalize, h3, alookup_specMap]
  have htr : (pyStrip r.1, pyStrip r.2) ∈ rows.map fun r => (pyStrip r.1, pyStrip r.2) :=
    List.mem_map_of_mem _ hr
  have hmem : pyStrip r.1 ∈ (rows.map fun r => (pyStrip r.1, pyStrip r.2)).map Prod.fst :=
    List.mem_map_of_mem Prod.fst htr
  rw [if_pos hmem]
  refine ⟨_, rfl, ?_⟩
  rw [mem_firstSeen]
  have hfil : (pyStrip r.1, pyStrip r.2) ∈
      List.filter (fun x => decide (x.1 = pyStrip r.1))
        (rows.map fun r => (pyStrip r.1, pyStrip r.2)) := by
    rw [List.mem_filter]
    exact ⟨htr, by simp⟩
  exact List.mem_map_of_mem Prod.snd hfil

/-- Witness for C4 (amended): the whitespace-only child row (A," ")
itself contributes the empty-string child to key A. -/
theorem foldRows_C4_amended_witness :
    (∃ cs, alookup (pyStrip "A") (foldRows [("A", " ")]) = some cs ∧ pyStrip " " ∈ cs) ∧
    foldRows [("A", " "), ("B", "z")] = [("A", [""]), ("B", ["z"])] :=
  foldRows_C4_amended [("A", " ")] ("A", " ") (by decide)

/-! ### Theorems for claim C9 -/

/-- C9: in both upload pipelines, whenever the row fold produces an empty
mapping (for example, an input with no data rows), the operation fails
with the EmptyInput error of that pipeline and no remote create call is
issued. -/
theorem upload_C9_empty (l : String) (pid cid : Option String) (df : DataFrame)
    (pairs : List (String × String)) (l2 p2 c2 : Option String) (df2 : DataFrame)
    (pairs2 : List (String × String)) (resp : HttpResp)
    (hcols : ¬ df.columns.length < 2)
    (hex : extractPairs df (if pyTruthy pid then pid.getD "" else df.columns.getD 0 "")
      (if pyTruthy cid then cid.getD "" else df.columns.getD 1 "") = some pairs)
    (hempty : foldRows pairs = [])
    (hids : pyTruthy l2 = true ∧ pyTruthy p2 = true ∧ pyTruthy c2 = true)
    (hcat : "Category" ∈ df2.columns.map (fun c => pyTitle (pyStrip c)) ∧
      "Subcategory" ∈ df2.columns.map (fun c => pyTitle (pyStrip c)))
    (hex2 : extractPairs { df2 with columns := df2.columns.map fun c => pyTitle (pyStrip c) }
      "Category" "Subcategory" = some pairs2)
    (hempty2 : foldRows pairs2 = []) :
    (upload_dependency l pid cid df resp).result =
      .error (400, "No mappings found in input") ∧
    (upload_dependency l pid cid df resp).remote_calls = 0 ∧
    (upload_dependency_mapping l2 p2 c2 df2 resp).result =
      .error (400, "Excel file is empty") ∧
    (upload_dependency_mapping l2 p2 c2 df2 resp).remote_calls = 0 := by
  simp only [upload_dependency, upload_dependency_mapping]
  rw [if_neg hcols, hex]
  rw [if_neg (show ¬¬(pyTruthy l2 = true ∧ pyTruthy p2 = true ∧ pyTruthy c2 = true) from
      fun hn => hn hids),
    if_neg (show ¬¬("Category" ∈ df2.columns.map (fun c => pyTitle (pyStrip c)) ∧
        "Subcategory" ∈ df2.columns.map (fun c => pyTitle (pyStrip c))) from
      fun hn => hn hcat),
    hex2]
  dsimp only
  rw [hempty, hempty2, if_pos rfl, if_pos rfl]
  exact ⟨rfl, rfl, rfl, rfl⟩

/-- Witness for C9: concrete empty spreadsheets (headers, no data rows)
through both pipelines. -/
theorem upload_C9_empty_witness :
    (upload_dependency "L" none none ⟨["a", "b"], []⟩ ⟨200, "ok"⟩).result =
      .error (400, "No mappings found in input") ∧
    (upload_dependency "L" none none ⟨["a", "b"], []⟩ ⟨200, "ok"⟩).remote_calls = 0 ∧
    (upload_dependency_mapping (some "L") (some "P") (some "C")
        ⟨["Category", "Subcategory"], []⟩ ⟨200, "ok"⟩).result =
      .error (400, "Excel file is empty") ∧
    (upload_dependency_mapping (some "L") (some "P") (some "C")
        ⟨["Category", "Subcategory"], []⟩ ⟨200, "ok"⟩).remote_calls = 0 :=
  upload_C9_empty "L" none none ⟨["a", "b"], []⟩ [] (some "L") (some "P") (some "C")
    ⟨["Category", "Subcategory"], []⟩ [] ⟨200, "ok"⟩ (by decide) rfl rfl
    ⟨rfl, rfl, rfl⟩ (by decide) rfl rfl

/-! ### Theorems for claim C8 -/

/-- C8 counterexample: in `upload_dependency_mapping` the caller-supplied
field identifiers do not select columns.  With parentId "Subcategory" and
childId "Category" supplied, the fold still reads parent values from the
fixed "Category" column: the single row (p, c) yields {p: [c]}, not the
{c: [p]} that identifier-driven column selection would produce. -/
theorem upload_mapping_C8_counterexample :
    (upload_dependency_mapping (some "L") (some "Subcategory") (some "Category")
        ⟨["Category", "Subcategory"], [["p", "c"]]⟩ ⟨200, "ok"⟩).result =
      .ok { layoutId := "L", parentId := "Subcategory", childId := "Category",
            mappings := [("p", ["c"])] } ∧
    [("p", ["c"])] ≠ ([("c", ["p"])] : List (String × List String)) :=
  ⟨rfl, by decide⟩

/-- C8 (amended): in the main app's `upload_dependency`, caller-supplied
truthy field identifiers select the parent and child columns, and with
none supplied the first and second column headers are used, the chosen
labels also becoming the payload's parentId/childId; in the router's
`upload_dependency_mapping`, the (required) identifiers are passed through
to the payload but never select columns — the fold always reads the fixed
title-cased "Category" and "Subcategory" columns, whatever identifiers the
caller supplies. -/
theorem upload_C8_amended (l : String) (df : DataFrame) (resp : HttpResp) :
    (∀ pid cid pairs pl, pyTruthy pid = true → pyTruthy cid = true →
      extractPairs df (pid.getD "") (cid.getD "") = some pairs →
      (upload_dependency l pid cid df resp).result = .ok pl →
      pl.parentId = pid.getD "" ∧ pl.childId = cid.getD "" ∧
        pl.mappings = specNormalize pairs) ∧
    (∀ pairs pl,
      extractPairs df (df.columns.getD 0 "") (df.columns.getD 1 "") = some pairs →
      (upload_dependency l none none df resp).result = .ok pl →
      pl.parentId = df.columns.getD 0 "" ∧ pl.childId = df.columns.getD 1 "" ∧
        pl.mappings = specNormalize pairs) ∧
    (∀ l2 p2 c2 pairs2 pl2,
      extractPairs { df with columns := df.columns.map fun c => pyTitle (pyStrip c) }
        "Category" "Subcategory" = some pairs2 →
      (upload_dependency_mapping l2 p2 c2 df resp).result = .ok pl2 →
      pl2.parentId = p2.getD "" ∧ pl2.childId = c2.getD "" ∧
        pl2.mappings = specNormalize pairs2) := by
  refine ⟨?_, ?_, ?_⟩
  · intro pid cid pairs pl htp htc hex hok
    simp only [upload_dependency, if_pos htp, if_pos htc, hex] at hok
    by_cases hlen : df.columns.length < 2
    · rw [if_pos hlen] at hok
      simp at hok
    · rw [if_neg hlen] at hok
      by_cases hemp : foldRows pairs = []
      · rw [if_pos hemp] at hok
        simp at hok
      · rw [if_neg hemp] at hok
        by_cases hst : ¬ (resp.status = 200 ∨ resp.status = 201)
        · rw [if_pos hst] at hok
          simp at hok
        · rw [if_neg hst] at hok
          dsimp only at hok
          injection hok with h
          subst h
          exact ⟨rfl, rfl, foldRows_eq_specNormalize pairs⟩
  · intro pairs pl hex hok
    have hf : pyTruthy (none : Option String) = false := rfl
    simp only [upload_dependency, hf, Bool.false_eq_true, if_false, hex] at hok
    by_cases hlen : df.columns.length < 2
    · rw [if_pos hlen] at hok
      simp at hok
    · rw [if_neg hlen] at hok
      by_cases hemp : foldRows pairs = []
      · rw [if_pos hemp] at hok
        simp at hok
      · rw [if_neg hemp] at hok
        by_cases hst : ¬ (resp.status = 200 ∨ resp.status = 201)
        · rw [if_pos hst] at hok
          simp at hok
        · rw [if_neg hst] at hok
          dsimp only at hok
          injection hok with h
          subst h
          exact ⟨rfl, rfl, foldRows_eq_specNormalize pairs⟩
  · intro l2 p2 c2 pairs2 pl2 hex2 hok
    simp only [upload_dependency_mapping, hex2] at hok
    by_cases h1 : ¬ (pyTruthy l2 = true ∧ pyTruthy p2 = true ∧ pyTruthy c2 = true)
    · rw [if_pos h1] at hok
      simp at hok
    · rw [if_neg h1] at hok
      by_cases h2 : ¬ ("Category" ∈ df.columns.map (fun c => pyTitle (pyStrip c)) ∧
          "Subcategory" ∈ df.columns.map (fun c => pyTitle (pyStrip c)))
      · rw [if_pos h2] at hok
        simp at hok
      · rw [if_neg h2] at hok
        by_cases hemp : foldRows pairs2 = []
        · rw [if_pos hemp] at hok
          simp at hok
        · rw [if_neg hemp] at hok
          by_cases hst : ¬ (resp.status = 200 ∨ resp.status = 201)
          · rw [if_pos hst] at hok
            simp at hok
          · rw [if_neg hst] at hok
            dsimp only at hok
            injection hok with h
            subst h
            exact ⟨rfl, rfl, foldRows_eq_specNormalize pairs2⟩

/-- Witness for C8 (amended): all three parts applied to a concrete
two-column sheet with one data row — explicit ids swapping the columns,
the default first/second headers, and the router's fixed columns. -/
theorem upload_C8_amended_witness :
    ((⟨"L", "b", "a", [("c", ["p"])]⟩ : UploadPayload).parentId = "b" ∧
      (⟨"L", "b", "a", [("c", ["p"])]⟩ : UploadPayload).childId = "a" ∧
      (⟨"L", "b", "a", [("c", ["p"])]⟩ : UploadPayload).mappings =
        specNormalize [("c", "p")]) ∧
    ((⟨"L", "a", "b", [("p", ["c"])]⟩ : UploadPayload).mappings =
      specNormalize [("p", "c")]) ∧
    ((⟨"L", "P", "C", [("p", ["c"])]⟩ : UploadPayload).mappings =
      specNormalize [("p", "c")]) := by
  refine ⟨?_, ?_, ?_⟩
  · exact (upload_C8_amended "L" ⟨["a", "b"], [["p", "c"]]⟩ ⟨200, "ok"⟩).1
      (some "b") (some "a") [("c", "p")] ⟨"L", "b", "a", [("c", ["p"])]⟩ rfl rfl rfl rfl
  · exact ((upload_C8_amended "L" ⟨["a", "b"], [["p", "c"]]⟩ ⟨200, "ok"⟩).2.1
      [("p", "c")] ⟨"L", "a", "b", [("p", ["c"])]⟩ rfl rfl).2.2
  · exact ((upload_C8_amended "L" ⟨["Category", "Subcategory"], [["p", "c"]]⟩ ⟨200, "ok"⟩).2.2
      (some "L") (some "P") (some "C") [("p", "c")] ⟨"L", "P", "C", [("p", ["c"])]⟩
      rfl rfl).2.2
